import Mathlib

/-
Verification of the MatchMy-Resume document text-extraction and
analysis-request pipeline: a shallow embedding of the upload handlers,
the PDF page-join, the retry transport, the response-envelope extractor,
the analyze state transition, and the presentational consumers, together
with theorems settling the frozen claims about them.
-/

namespace MatchMyResume

/-- Model of JavaScript/JSON values as produced by JSON.parse and passed
between the components of the app. Numbers are modelled as integers. -/
inductive JValue where
  | null
  | bool (b : Bool)
  | num (n : Int)
  | str (s : String)
  | arr (elems : List JValue)
  | obj (fields : List (String × JValue))

/-- Model of JavaScript truthiness of a value. -/
def truthy : JValue → Bool
  | .null => false
  | .bool b => b
  | .num n => n != 0
  | .str s => s != ""
  | .arr _ => true
  | .obj _ => true

/-- Whether the JavaScript typeof of the value is the string "object"
(true for objects, arrays and null). -/
def isObjectType : JValue → Bool
  | .obj _ => true
  | .arr _ => true
  | .null => true
  | _ => false

/-- Field lookup in an object literal (association list). -/
def lookupField : List (String × JValue) → String → Option JValue
  | [], _ => none
  | (k, v) :: rest, key => if k == key then some v else lookupField rest key

/-- Model of plain (non-optional) property access v.key: a TypeError on null,
the field for objects, undefined (none) for everything else. -/
def getProp : JValue → String → Except String (Option JValue)
  | .null, key => .error ("Cannot read properties of null (reading " ++ key ++ ")")
  | .obj fs, key => .ok (lookupField fs key)
  | _, _ => .ok none

/-- Model of optional-chained property access v?.key: undefined when the base
is undefined or null or carries no such property. -/
def optProp (v : Option JValue) (key : String) : Option JValue :=
  match v with
  | some (.obj fs) => lookupField fs key
  | _ => none

/-- Model of optional-chained index access v?.[i]; objects are indexed
through the stringified key, as in JavaScript. -/
def optIndex (v : Option JValue) (i : Nat) : Option JValue :=
  match v with
  | some (.arr xs) => xs.get? i
  | some (.obj fs) => lookupField fs (toString i)
  | _ => none

/-- Model of bracket access base[key] on a defined base value. -/
def getIndexProp : JValue → String → Option JValue
  | .obj fs, key => lookupField fs key
  | _, _ => none

/-- Model of the JavaScript expression a || d for a possibly-undefined a,
as used in the sub-score reads scoreBreakdown?.k || 0. -/
def jsOr (v : Option JValue) (d : JValue) : JValue :=
  match v with
  | some x => if truthy x then x else d
  | none => d

/-- Whitespace characters stripped by the JavaScript trim. -/
def isJsWhitespace (c : Char) : Bool :=
  c == ' ' || c == '\t' || c == '\n' || c == '\r'

/-- Model of the JavaScript String trim: strip leading and trailing
whitespace. -/
def jsTrim (s : String) : String :=
  ⟨((s.data.dropWhile isJsWhitespace).reverse.dropWhile isJsWhitespace).reverse⟩

/-- Model of the JavaScript String toLowerCase (character-wise). -/
def jsToLower (s : String) : String := ⟨s.data.map Char.toLower⟩

/-- Model of the JavaScript String endsWith: the last characters of s
coincide with t. -/
def jsEndsWith (s t : String) : Bool :=
  decide (t.length ≤ s.length) && s.data.drop (s.length - t.length) == t.data

/-- Model of the JavaScript String substring(0, n): the first n characters,
or the whole string when it is shorter. -/
def jsSubstringTo (s : String) (n : Nat) : String := ⟨s.data.take n⟩

/-- Model of the JavaScript Array join with the given separator. -/
def jsJoin (sep : String) : List String → String
  | [] => ""
  | [x] => x
  | x :: rest => x ++ sep ++ jsJoin sep rest

/-- Model of the JavaScript Number coercion on the integral fragment the app
uses; none stands for NaN. String contents are parsed as optionally signed
decimal integers, the fragment exercised here. -/
def jsToNumberCore : JValue → Option Int
  | .null => some 0
  | .bool b => some (if b then 1 else 0)
  | .num n => some n
  | .str s => if jsTrim s == "" then some 0 else (jsTrim s).toInt?
  | .arr [] => some 0
  | .arr [x] => jsToNumberCore x
  | .arr (_ :: _ :: _) => none
  | .obj _ => none

/-- Model of the JavaScript Number coercion on a possibly-undefined value. -/
def jsToNumber : Option JValue → Option Int
  | none => none
  | some v => jsToNumberCore v

/-- Failure modes of the PDF reading promise in readPdfFile of App.jsx:
a parse failure inside the onload callback, or a FileReader error. -/
inductive PdfReadError where
  | parseError
  | readError

/-- The page loop of readPdfFile (App.jsx lines 28-36): starting from the
empty string, append for each page its text tokens joined by single spaces
followed by a blank line. -/
def pdfFullText (pages : List (List String)) : String :=
  pages.foldl (fun fullText page => fullText ++ (jsJoin " " page ++ "\n\n")) ""

/-- Right-to-left reading of the page loops of the two PDF extractors: each
page contributes its tokens joined by single spaces plus the terminator
(a blank line in readPdfFile, a single newline in the drag-and-drop
extractText). -/
def pagesConcat (term : String) : List (List String) → String
  | [] => ""
  | page :: rest => (jsJoin " " page ++ term) ++ pagesConcat term rest

/-- Model of readPdfFile from App.jsx (lines 16-58), taking the outcome the
pdf.js decode would produce for the file (its pages as lists of text tokens,
or a failure): on success the accumulated page text is trimmed; the two
failure modes reject with their fixed messages. -/
def readPdfFile (doc : Except PdfReadError (List (List String))) : Except String String :=
  match doc with
  | .ok pages => .ok (jsTrim (pdfFullText pages))
  | .error .parseError =>
      .error "Failed to read PDF file. Try another file or paste the text manually."
  | .error .readError => .error "Unable to read PDF file."

/-- Modelled from the spec (refinement target for the PDF extraction claim):
the per-page texts, each page a join of its tokens by single spaces,
concatenated in page order separated by a blank line, the result trimmed of
leading and trailing whitespace. -/
def specPdfText (pages : List (List String)) : String :=
  jsTrim (jsJoin "\n\n" (pages.map (fun page => jsJoin " " page)))

/-- Single-newline analogue of specPdfText: the shape of text actually
produced by the drag-and-drop extractText (unnamed part_001), whose loop
separates the per-page texts by one newline rather than a blank line. -/
def specDropText (pages : List (List String)) : String :=
  jsTrim (jsJoin "\n" (pages.map (fun page => jsJoin " " page)))

/-- An uploaded file as seen by handleFileUpload: its name, declared MIME
type, and the outcomes the platform readers would produce for it (the pdf.js
decode into pages of text tokens, and the FileReader readAsText decode). -/
structure UploadedFile where
  name : String
  ftype : String
  pdfDoc : Except PdfReadError (List (List String))
  textRead : Except Unit String

/-- What an upload handler communicates outward: the argument passed to
onTextExtracted (when it is called at all) and the error message set. -/
structure UploadOutcome where
  emitted : Option String
  errorMsg : Option String

/-- Error message thrown for .doc and .docx files in handleFileUpload. -/
def docNotSupportedMsg : String :=
  "Automatic parsing for DOC/DOCX is not supported. Please save as PDF/TXT or paste the content below."

/-- Error message thrown for unrecognized file types in handleFileUpload. -/
def unsupportedTypeMsg (name : String) : String :=
  "Unsupported file type: " ++ name ++ ". Please upload a PDF/TXT or paste the content manually."

/-- The classification and extraction body of handleFileUpload (App.jsx
lines 70-102): PDF if the declared MIME type is application/pdf or the
lowercased name ends in .pdf, plain text if the MIME type is text/plain or
the name ends in .txt, otherwise a thrown error for .doc/.docx names and for
everything else. -/
def uploadResult (file : UploadedFile) : Except String String :=
  let isPdf := file.ftype == "application/pdf" || jsEndsWith (jsToLower file.name) ".pdf"
  let isTxt := file.ftype == "text/plain" || jsEndsWith (jsToLower file.name) ".txt"
  let isDoc := jsEndsWith (jsToLower file.name) ".doc" || jsEndsWith (jsToLower file.name) ".docx"
  if isPdf then
    readPdfFile file.pdfDoc
  else if isTxt then
    match file.textRead with
    | .ok t => .ok t
    | .error _ => .error "Failed to read text file."
  else if isDoc then
    .error docNotSupportedMsg
  else
    .error (unsupportedTypeMsg file.name)

/-- Model of handleFileUpload from App.jsx (lines 61-112): on success the
extracted text is emitted to the caller; on any thrown error the message is
set and the empty string is emitted to clear previous text. -/
def handleFileUpload (file : UploadedFile) : UploadOutcome :=
  match uploadResult file with
  | .ok t => { emitted := some t, errorMsg := none }
  | .error m => { emitted := some "", errorMsg := some m }

/-- A file given to the drag-and-drop FileUpload component, with the pdf.js
decode outcome it would produce. -/
structure DropFile where
  name : String
  ftype : String
  pdfDoc : Except Unit (List (List String))

/-- Model of extractText from the drag-and-drop FileUpload component
(unnamed part_001, lines 16-43): pdf pages are joined, tokens by single
spaces and pages by single newlines, and trimmed; a parse failure sets the
error message and emits the empty string. -/
def extractTextDrop (file : DropFile) : UploadOutcome :=
  match file.pdfDoc with
  | .ok pages =>
      { emitted := some (jsTrim (pages.foldl (fun acc page => acc ++ (jsJoin " " page ++ "\n")) ""))
        errorMsg := none }
  | .error _ =>
      { emitted := some ""
        errorMsg := some "Failed to parse PDF. Please try a different file or check that it is not password-protected." }

/-- Model of onDrop from the drag-and-drop FileUpload component (unnamed
part_001, lines 45-65): an empty drop or a non-PDF file only sets an error
and returns; PDF files are handed to extractText. -/
def onDrop (acceptedFiles : List DropFile) : UploadOutcome :=
  match acceptedFiles with
  | [] => { emitted := none, errorMsg := some "No file received. Please try again." }
  | file :: _ =>
    if file.ftype == "application/pdf" || jsEndsWith (jsToLower file.name) ".pdf" then
      extractTextDrop file
    else
      { emitted := none, errorMsg := some "Please upload a valid PDF file (max 5MB)." }

/-- Model of onDropRejected from the drag-and-drop FileUpload component
(unnamed part_001, lines 67-76), taking the error codes of the first
rejection: sets a size-specific or generic error, never emits. -/
def onDropRejected (fileRejections : List (List String)) : UploadOutcome :=
  match fileRejections with
  | [] => { emitted := none, errorMsg := none }
  | errs :: _ =>
    if errs.any (fun c => c == "file-too-large") then
      { emitted := none, errorMsg := some "File is too large. Maximum allowed size is 5MB." }
    else
      { emitted := none, errorMsg := some "File was rejected. Please ensure it is a PDF under 5MB." }

/-- Outcome of one underlying fetch call: a rejected promise (network
error), or a response with its ok flag, status code, and the outcome of
its json() body parse. -/
inductive FetchOutcome where
  | net (msg : String)
  | resp (ok : Bool) (status : Nat) (body : Except String JValue)

/-- How one iteration body of fetchWithRetry (App.jsx lines 509-514) ends,
as seen by the loop: a caught failure enters the catch block (a rejected
fetch, or the error thrown for a non-success status) and is subject to the
retry policy, while a success status reaches the statement returning
response.json() with no await, so the body-parse outcome, error included,
escapes the try block and terminates the loop at once. -/
inductive AttemptOutcome where
  | caught (msg : String)
  | returned (body : Except String JValue)

/-- One iteration body of fetchWithRetry: perform the fetch, throw on a
non-success status (caught below), and otherwise return the response.json()
outcome, which is not guarded by the catch block. -/
def attemptResult (transport : Nat → FetchOutcome) (i : Nat) : AttemptOutcome :=
  match transport i with
  | .net m => .caught m
  | .resp ok status body =>
      if ok then .returned body
      else .caught ("HTTP error! status: " ++ toString status)

/-- The retry loop of fetchWithRetry (App.jsx lines 507-524), indexed by the
current attempt i, with the remaining loop iterations as fuel (the fuel-0
case is reachable only for a non-positive retries argument, where the
JavaScript loop falls through). Returns the number of attempts performed,
the backoff delays waited in milliseconds, and the final outcome. -/
def fetchLoop (transport : Nat → FetchOutcome) (retries : Nat) :
    Nat → Nat → Nat × List Nat × Except String JValue
  | _, 0 => (0, [], .error "loop exhausted without returning")
  | i, fuel + 1 =>
    match attemptResult transport i with
    | .returned body => (1, [], body)
    | .caught e =>
      if i < retries - 1 then
        let rest := fetchLoop transport retries (i + 1) fuel
        (rest.1 + 1, (2 ^ i * 1000) :: rest.2.1, rest.2.2)
      else
        (1, [], .error e)

/-- Model of fetchWithRetry: run the loop from attempt index 0. -/
def fetchWithRetry (transport : Nat → FetchOutcome) (retries : Nat) :
    Nat × List Nat × Except String JValue :=
  fetchLoop transport retries 0 retries

/-- The message thrown by extractJSON when no usable payload is found. -/
def invalidResponseMsg : String := "API returned an invalid or empty structured response."

/-- The wrapping applied by the catch block of extractJSON. -/
def processFailMsg (m : String) : String := "Failed to process analysis: " ++ m

/-- The envelope navigation of extractJSON: candidate content parts text,
all steps after the first optional-chained. -/
def nestedTextBlob (cands : Option JValue) : Option JValue :=
  optProp (optIndex (optProp (optProp (optIndex cands 0) "content") "parts") 0) "text"

/-- Model of extractJSON from App.jsx (lines 526-542), parameterized by the
platform JSON.parse (an error models a thrown SyntaxError): navigate the
envelope, parse a truthy text blob, return the result only when it is a
non-null value of object type, and otherwise throw the invalid-or-empty
message; every thrown message is wrapped by the catch block. -/
def extractJSON (parse : JValue → Except String JValue) (apiResponse : JValue) :
    Except String JValue :=
  match getProp apiResponse "candidates" with
  | .error m => .error (processFailMsg m)
  | .ok cands =>
    match nestedTextBlob cands with
    | some jt =>
      if truthy jt then
        match parse jt with
        | .error m => .error (processFailMsg m)
        | .ok parsed =>
          if truthy parsed && isObjectType parsed then .ok parsed
          else .error (processFailMsg invalidResponseMsg)
      else .error (processFailMsg invalidResponseMsg)
    | none => .error (processFailMsg invalidResponseMsg)

/-- The pieces of React state in App that analyzeResume reads and writes. -/
structure AppState where
  resumeText : String
  jobDescription : String
  analysis : Option JValue
  loading : Bool
  apiError : String
  originalResumeText : String

/-- The fixed part of the prompt template before the resume text. -/
def promptHeader : String :=
  "ANALYSIS REQUEST:\nYou are a professional resume analyzer. Analyze the provided RESUME against the JOB DESCRIPTION.\n\nTASK: Calculate all scores and provide detailed feedback exactly according to the requested JSON schema.\n\nRESUME:\n"

/-- The fixed part of the prompt template between the two embedded texts. -/
def promptMid : String := "\n\nJOB DESCRIPTION:\n"

/-- The prompt of analyzeResume (App.jsx lines 553-562), embedding the
resume text truncated to its first 10000 characters and the job description
truncated to its first 5000 characters. -/
def analysisPrompt (resumeText jobDescription : String) : String :=
  promptHeader ++ jsSubstringTo resumeText 10000 ++ promptMid ++ jsSubstringTo jobDescription 5000

/-- The error message thrown when the API key is absent. -/
def missingKeyMsg : String :=
  "Gemini API key is missing. Set VITE_GEMINI_API_KEY in your .env.local file."

/-- The message thrown by the matchPercentage integrity gate. -/
def missingMatchMsg : String :=
  "Invalid analysis format received - missing matchPercentage"

/-- The wrapping applied by the catch block of analyzeResume. -/
def analysisFailedMsg (m : String) : String :=
  "Analysis failed: " ++ m ++ ". Please try again with different content."

/-- Model of analyzeResume from App.jsx (lines 544-607) as a state
transition, parameterized by the transport (a function of the constructed
prompt giving per-attempt fetch outcomes), the platform JSON.parse, and the
environment API key. Returns the new state together with the number of
fetch attempts performed (0 when no network call is made). On empty resume
or job-description text nothing runs; otherwise loading is set, the prior
analysis and error are cleared, and the request either stores the parsed
result (when its matchPercentage member is a number) or records the wrapped
error message. -/
def analyzeResume (transportFor : String → Nat → FetchOutcome)
    (parse : JValue → Except String JValue)
    (apiKey : Option String) (st : AppState) : AppState × Nat :=
  if st.resumeText == "" || st.jobDescription == "" then (st, 0)
  else
    let st1 : AppState :=
      { st with loading := true, analysis := none, apiError := ""
                originalResumeText := st.resumeText }
    match apiKey with
    | none => ({ st1 with apiError := analysisFailedMsg missingKeyMsg, loading := false }, 0)
    | some _ =>
      let prompt := analysisPrompt st.resumeText st.jobDescription
      let fetched := fetchWithRetry (transportFor prompt) 3
      match fetched.2.2 with
      | .error e => ({ st1 with apiError := analysisFailedMsg e, loading := false }, fetched.1)
      | .ok envelope =>
        match extractJSON parse envelope with
        | .error e => ({ st1 with apiError := analysisFailedMsg e, loading := false }, fetched.1)
        | .ok parsed =>
          match optProp (some parsed) "matchPercentage" with
          | some (.num _) => ({ st1 with analysis := some parsed, loading := false }, fetched.1)
          | _ => ({ st1 with apiError := analysisFailedMsg missingMatchMsg, loading := false },
                  fetched.1)

/-- Destructuring with default from the analysis object, as in the
AnalysisResults component: the default applies exactly when the field is
absent. -/
def destructured (analysis : JValue) (key : String) (d : JValue) : JValue :=
  match analysis with
  | .obj fs => (lookupField fs key).getD d
  | _ => d

/-- The guard Array.isArray(x) applied before the display lists are
rendered. -/
def safeArray : JValue → List JValue
  | .arr xs => xs
  | _ => []

/-- The guard Array.isArray(items) of FeedbackList, applied to a
possibly-undefined optional-chain read. -/
def safeArrayOpt : Option JValue → List JValue
  | some (.arr xs) => xs
  | _ => []

/-- The rendering of missingKeywords (App.jsx lines 402-417): evaluate the
comparison of its length member against 0 and, when positive, map over the
entries. Returns the rendered entries, or the TypeError message for values
on which the JavaScript would throw. -/
def renderKeywordList (v : JValue) : Except String (List JValue) :=
  match v with
  | .null => .error "Cannot read properties of null (reading length)"
  | .arr xs => .ok xs
  | .str s => if s == "" then .ok [] else .error "missingKeywords.map is not a function"
  | .obj fs =>
    match jsToNumber (lookupField fs "length") with
    | some n => if n > 0 then .error "missingKeywords.map is not a function" else .ok []
    | none => .ok []
  | .num _ => .ok []
  | .bool _ => .ok []

/-- The data consumed and rendered by the AnalysisResults component
(App.jsx lines 253-443), after default substitution. -/
structure AnalysisView where
  matchPercentage : JValue
  atsScore : JValue
  keywordsScore : JValue
  experienceScore : JValue
  skillsScore : JValue
  educationScore : JValue
  summary : JValue
  missingKeywords : List JValue
  strengths : List JValue
  weaknesses : List JValue
  keyChanges : List JValue
  skillsFeedback : List JValue
  experienceFeedback : List JValue
  educationFeedback : List JValue

/-- The consumption of the analysis object by the AnalysisResults component:
destructure with defaults (App.jsx lines 253-264), read the four sub-scores
as optional chains with a zero fallback, guard the display lists with
Array.isArray, and render missingKeywords, the one consuming spot that can
throw. -/
def analysisResultsView (analysis : JValue) : Except String AnalysisView :=
  let matchPercentage := destructured analysis "matchPercentage" (.num 0)
  let atsScore := destructured analysis "atsScore" (.num 0)
  let scoreBreakdown := destructured analysis "scoreBreakdown" (.obj [])
  let sectionFeedback := destructured analysis "sectionFeedback" (.obj [])
  let missingKeywords := destructured analysis "missingKeywords" (.arr [])
  let strengths := destructured analysis "strengths" (.arr [])
  let weaknesses := destructured analysis "weaknesses" (.arr [])
  let keyChanges := destructured analysis "keyChanges" (.arr [])
  let summary := destructured analysis "summary" (.str "")
  match renderKeywordList missingKeywords with
  | .error m => .error m
  | .ok kws =>
    .ok
      { matchPercentage := matchPercentage
        atsScore := atsScore
        keywordsScore := jsOr (optProp (some scoreBreakdown) "keywords") (.num 0)
        experienceScore := jsOr (optProp (some scoreBreakdown) "experience") (.num 0)
        skillsScore := jsOr (optProp (some scoreBreakdown) "skills") (.num 0)
        educationScore := jsOr (optProp (some scoreBreakdown) "education") (.num 0)
        summary := summary
        missingKeywords := kws
        strengths := safeArray strengths
        weaknesses := safeArray weaknesses
        keyChanges := safeArray keyChanges
        skillsFeedback := safeArrayOpt (optProp (some sectionFeedback) "skills")
        experienceFeedback := safeArrayOpt (optProp (some sectionFeedback) "experience")
        educationFeedback := safeArrayOpt (optProp (some sectionFeedback) "education") }

/-- Model of getSafeScore from the ScoreBreakdown component: 0 unless the
breakdown is a truthy value of object type; otherwise coerce the named entry
to a number (0 when the coercion gives NaN) and clamp it into 0-100. -/
def getSafeScore (breakdown : Option JValue) (name : String) : Int :=
  match breakdown with
  | none => 0
  | some b =>
    if truthy b && isObjectType b then
      match (match getIndexProp b name with
             | some (.num n) => some n
             | r => jsToNumber r : Option Int) with
      | some n => min (max n 0) 100
      | none => 0
    else 0

/-- Model of the score normalization of the ATSCompatibility component
(unnamed part_000, lines 4-7): numbers are clamped into 0-100, anything
else displays as not available (none). -/
def atsNormalizedScore (score : Option JValue) : Option Int :=
  match score with
  | some (.num n) => some (min (max n 0) 100)
  | _ => none

/-! Helper lemmas about the string primitives. -/

theorem strExt {s t : String} (h : s.data = t.data) : s = t := by
  cases s; cases t; exact congrArg String.mk h

theorem strDataAppend (s t : String) : (s ++ t).data = s.data ++ t.data := by
  cases s; cases t; rfl

theorem strAppendEmpty (s : String) : s ++ "" = s := by
  apply strExt; rw [strDataAppend]; simp [show ("" : String).data = [] from rfl]

theorem strEmptyAppend (s : String) : "" ++ s = s := by
  apply strExt; rw [strDataAppend]; simp [show ("" : String).data = [] from rfl]

theorem strAppendAssoc (a b c : String) : a ++ b ++ c = a ++ (b ++ c) := by
  apply strExt; simp [strDataAppend, List.append_assoc]

theorem rtrimAppendWS (w d : List Char) (hw : ∀ c ∈ w, isJsWhitespace c = true) :
    ((d ++ w).reverse.dropWhile isJsWhitespace).reverse
      = (d.reverse.dropWhile isJsWhitespace).reverse := by
  rw [List.reverse_append, List.dropWhile_append_of_pos]
  intro a ha
  exact hw a (List.mem_reverse.mp ha)

theorem jsTrimAppendWS (s w : String) (hw : ∀ c ∈ w.data, isJsWhitespace c = true) :
    jsTrim (s ++ w) = jsTrim s := by
  apply strExt
  show (((s ++ w).data.dropWhile isJsWhitespace).reverse.dropWhile isJsWhitespace).reverse
      = ((s.data.dropWhile isJsWhitespace).reverse.dropWhile isJsWhitespace).reverse
  rw [strDataAppend, List.dropWhile_append]
  split
  case isTrue h =>
    have h0 : s.data.dropWhile isJsWhitespace = [] := by
      simpa [List.isEmpty_iff] using h
    have hw0 : w.data.dropWhile isJsWhitespace = [] := List.dropWhile_eq_nil_iff.mpr hw
    rw [h0, hw0]
  case isFalse h =>
    exact rtrimAppendWS w.data _ hw

theorem pagesFoldAcc (term : String) (pages : List (List String)) :
    ∀ acc : String,
      pages.foldl (fun a p => a ++ (jsJoin " " p ++ term)) acc
        = acc ++ pagesConcat term pages := by
  induction pages with
  | nil => intro acc; simp [pagesConcat, strAppendEmpty]
  | cons p ps ih =>
    intro acc
    simp only [List.foldl_cons, pagesConcat, ih, strAppendAssoc]

theorem pagesConcatEq (term : String) (p : List String) (ps : List (List String)) :
    pagesConcat term (p :: ps)
      = jsJoin term ((p :: ps).map (fun q => jsJoin " " q)) ++ term := by
  induction ps generalizing p with
  | nil => simp [pagesConcat, jsJoin, strAppendEmpty]
  | cons q qs ih =>
    simp only [pagesConcat, List.map_cons, jsJoin] at ih ⊢
    rw [ih q, strAppendAssoc, strAppendAssoc, strAppendAssoc]

/-- C5 counterexample: the drag-and-drop extractText (unnamed part_001, a
cited implementation of the claim) separates page texts by a single newline,
not a blank line: on a decoded two-page document it emits the single-newline
join, which differs from the blank-line-separated trimmed join the claim
asserts for every PDF extraction. -/
theorem C5_counterexample :
    (extractTextDrop
        { name := "two.pdf", ftype := "application/pdf",
          pdfDoc := .ok [["p1"], ["p2"]] }).emitted = some "p1\np2"
    ∧ specPdfText [["p1"], ["p2"]] = "p1\n\np2"
    ∧ ("p1\np2" : String) ≠ "p1\n\np2" := by
  refine ⟨rfl, rfl, by decide⟩

/-- C5 amended: for every file decoded by readPdfFile of App.jsx, the
extraction output equals the per-page texts (the tokens of each page joined
by single spaces) concatenated in page-number order separated by a blank
line and trimmed of leading and trailing whitespace, the text of page 1
preceding that of page 2; the drag-and-drop extractText of unnamed part_001
instead separates the per-page texts by a single newline before trimming,
likewise preserving page order. -/
theorem C5_pdf_extraction :
    (∀ pages : List (List String), readPdfFile (.ok pages) = .ok (specPdfText pages)) ∧
    (∀ p1 p2 : List String,
      readPdfFile (.ok [p1, p2])
        = .ok (jsTrim (jsJoin " " p1 ++ "\n\n" ++ jsJoin " " p2))) ∧
    (∀ (nm ft : String) (pages : List (List String)),
      extractTextDrop { name := nm, ftype := ft, pdfDoc := .ok pages }
        = { emitted := some (specDropText pages), errorMsg := none }) ∧
    (∀ (nm ft : String) (p1 p2 : List String),
      extractTextDrop { name := nm, ftype := ft, pdfDoc := .ok [p1, p2] }
        = { emitted := some (jsTrim (jsJoin " " p1 ++ "\n" ++ jsJoin " " p2)),
            errorMsg := none }) := by
  have hwnn : ∀ c ∈ ("\n\n" : String).data, isJsWhitespace c = true := by decide
  have hwn : ∀ c ∈ ("\n" : String).data, isJsWhitespace c = true := by decide
  have main : ∀ pages : List (List String), readPdfFile (.ok pages) = .ok (specPdfText pages) := by
    intro pages
    cases pages with
    | nil => rfl
    | cons p ps =>
      show Except.ok (jsTrim (pdfFullText (p :: ps))) = Except.ok (specPdfText (p :: ps))
      have h1 : pdfFullText (p :: ps) = pagesConcat "\n\n" (p :: ps) := by
        simpa [pdfFullText, strEmptyAppend] using pagesFoldAcc "\n\n" (p :: ps) ""
      rw [h1, pagesConcatEq, specPdfText, jsTrimAppendWS _ _ hwnn]
  have mainDrop : ∀ (nm ft : String) (pages : List (List String)),
      extractTextDrop { name := nm, ftype := ft, pdfDoc := .ok pages }
        = { emitted := some (specDropText pages), errorMsg := none } := by
    intro nm ft pages
    show ({ emitted := some (jsTrim (pages.foldl
        (fun acc page => acc ++ (jsJoin " " page ++ "\n")) "")), errorMsg := none }
          : UploadOutcome)
      = { emitted := some (specDropText pages), errorMsg := none }
    cases pages with
    | nil => rfl
    | cons p ps =>
      have h1 : (p :: ps).foldl (fun a q => a ++ (jsJoin " " q ++ "\n")) ""
          = pagesConcat "\n" (p :: ps) := by
        simpa [strEmptyAppend] using pagesFoldAcc "\n" (p :: ps) ""
      rw [h1, pagesConcatEq, specDropText, jsTrimAppendWS _ _ hwn]
  refine ⟨main, fun p1 p2 => ?_, mainDrop, fun nm ft p1 p2 => ?_⟩
  · rw [main [p1, p2]]
    rfl
  · rw [mainDrop nm ft [p1, p2]]
    rfl

theorem endsWithDocxExcludes (s : String) (h : jsEndsWith s ".docx" = true) :
    jsEndsWith s ".pdf" = false ∧ jsEndsWith s ".txt" = false := by
  rw [jsEndsWith, show (".docx" : String).length = 5 from rfl,
      show (".docx" : String).data = ['.', 'd', 'o', 'c', 'x'] from rfl,
      Bool.and_eq_true, decide_eq_true_eq, beq_iff_eq] at h
  obtain ⟨h5, hdrop⟩ := h
  have hstep : s.data.drop (s.length - 4) = ['d', 'o', 'c', 'x'] := by
    have e : s.length - 4 = (s.length - 5) + 1 := by omega
    rw [e, ← List.drop_drop, hdrop]
    rfl
  constructor
  · rw [jsEndsWith, show (".pdf" : String).length = 4 from rfl,
        show (".pdf" : String).data = ['.', 'p', 'd', 'f'] from rfl, hstep]
    simp
  · rw [jsEndsWith, show (".txt" : String).length = 4 from rfl,
        show (".txt" : String).data = ['.', 't', 'x', 't'] from rfl, hstep]
    simp

/-- C2 counterexample: a file whose name ends in .docx but whose declared
MIME type is application/pdf is classified as PDF by handleFileUpload, is
parsed, and returns extracted text with no error; the claim that every
.docx-named file fails with the unsupported-format error whatever its
declared MIME type is therefore false. -/
theorem C2_counterexample :
    jsEndsWith (jsToLower "resume.docx") ".docx" = true ∧
    handleFileUpload
        { name := "resume.docx", ftype := "application/pdf"
          pdfDoc := .ok [["Hello", "world"]], textRead := .error () }
      = { emitted := some "Hello world", errorMsg := none } := by
  exact ⟨by decide, rfl⟩

/-- C2 amended: for every uploaded file whose lowercased name ends in .docx
and whose declared MIME type is neither application/pdf nor text/plain,
text extraction fails with the unsupported-format error for doc/docx and
never returns extracted text (the empty string is emitted instead). -/
theorem C2_docx_unsupported (file : UploadedFile)
    (hdocx : jsEndsWith (jsToLower file.name) ".docx" = true)
    (hpdf : file.ftype ≠ "application/pdf") (htxt : file.ftype ≠ "text/plain") :
    handleFileUpload file = { emitted := some "", errorMsg := some docNotSupportedMsg } := by
  obtain ⟨hnp, hnt⟩ := endsWithDocxExcludes _ hdocx
  have h1 : (file.ftype == "application/pdf") = false := by
    simp [hpdf]
  have h2 : (file.ftype == "text/plain") = false := by
    simp [htxt]
  rw [handleFileUpload, uploadResult]
  simp only [h1, h2, hnp, hnt, hdocx, Bool.or_false, Bool.false_or, Bool.or_true]
  rfl

/-- Witness for the amended C2 theorem at a concrete .docx upload. -/
theorem C2_docx_unsupported_witness :
    handleFileUpload
        { name := "CV.docx", ftype := "application/msword"
          pdfDoc := .error .parseError, textRead := .error () }
      = { emitted := some "", errorMsg := some docNotSupportedMsg } :=
  C2_docx_unsupported _ (by decide) (by decide) (by decide)

/-- C1: the retry handler makes at most 3 total attempts; an attempt whose
parsed result is available returns it immediately; after the first and
second caught failures (a network error or a non-success HTTP status) it
waits 1000 and 2000 milliseconds (2 to the power of the attempt index, in
seconds) before retrying; when all three attempts fail with caught failures
the error of the third attempt is propagated unmodified with no fourth
attempt and no partial result; and a body-parse failure on a success
status, returned outside the try block, is propagated at once with no
retry and no backoff. -/
theorem C1_retry_policy (transport : Nat → FetchOutcome) :
    (fetchWithRetry transport 3).1 ≤ 3
    ∧ (∀ v, attemptResult transport 0 = .returned (.ok v) →
        fetchWithRetry transport 3 = (1, [], .ok v))
    ∧ (∀ e0 v, attemptResult transport 0 = .caught e0 →
        attemptResult transport 1 = .returned (.ok v) →
        fetchWithRetry transport 3 = (2, [1000], .ok v))
    ∧ (∀ e0 e1 v, attemptResult transport 0 = .caught e0 →
        attemptResult transport 1 = .caught e1 →
        attemptResult transport 2 = .returned (.ok v) →
        fetchWithRetry transport 3 = (3, [1000, 2000], .ok v))
    ∧ (∀ e0 e1 e2, attemptResult transport 0 = .caught e0 →
        attemptResult transport 1 = .caught e1 →
        attemptResult transport 2 = .caught e2 →
        fetchWithRetry transport 3 = (3, [1000, 2000], .error e2))
    ∧ (∀ e, attemptResult transport 0 = .returned (.error e) →
        fetchWithRetry transport 3 = (1, [], .error e)) := by
  refine ⟨?_, ?_, ?_, ?_, ?_, ?_⟩
  · rcases h0 : attemptResult transport 0 with e0 | b0 <;>
      rcases h1 : attemptResult transport 1 with e1 | b1 <;>
      rcases h2 : attemptResult transport 2 with e2 | b2 <;>
      simp [fetchWithRetry, fetchLoop, h0, h1, h2]
  · intro v h0
    simp [fetchWithRetry, fetchLoop, h0]
  · intro e0 v h0 h1
    simp [fetchWithRetry, fetchLoop, h0, h1]
  · intro e0 e1 v h0 h1 h2
    simp [fetchWithRetry, fetchLoop, h0, h1, h2]
  · intro e0 e1 e2 h0 h1 h2
    simp [fetchWithRetry, fetchLoop, h0, h1, h2]
  · intro e h0
    simp [fetchWithRetry, fetchLoop, h0]

/-- Witness for the C1 retry theorem: a transport that always fails with a
network error exhausts the three attempts, waits 1000 then 2000
milliseconds, and propagates the last error; one whose success response
carries a malformed body propagates that error after a single attempt with
no backoff. -/
theorem C1_retry_policy_witness :
    fetchWithRetry (fun _ => FetchOutcome.net "network down") 3
      = (3, [1000, 2000], .error "network down")
    ∧ fetchWithRetry (fun _ => FetchOutcome.resp true 200 (.error "bad json")) 3
      = (1, [], .error "bad json") :=
  ⟨(C1_retry_policy (fun _ => FetchOutcome.net "network down")).2.2.2.2.1
      "network down" "network down" "network down" rfl rfl rfl,
   (C1_retry_policy (fun _ => FetchOutcome.resp true 200 (.error "bad json"))).2.2.2.2.2
      "bad json" rfl⟩

/-- C8: whenever the resume text or the job-description text is empty,
invoking the analysis operation is a no-op: no network attempt is made, no
error is raised, and the analysis result, loading flag and error state are
left unchanged. -/
theorem C8_noop_on_empty (transportFor : String → Nat → FetchOutcome)
    (parse : JValue → Except String JValue) (apiKey : Option String) (st : AppState)
    (h : st.resumeText = "" ∨ st.jobDescription = "") :
    analyzeResume transportFor parse apiKey st = (st, 0) := by
  rcases h with h | h <;> simp [analyzeResume, h]

/-- Witness for the C8 no-op theorem at a concrete state with an empty
resume text. -/
theorem C8_noop_on_empty_witness :
    analyzeResume (fun _ _ => FetchOutcome.net "down") (fun v => Except.ok v) (some "key")
        { resumeText := "", jobDescription := "jd", analysis := none, loading := false
          apiError := "", originalResumeText := "" }
      = ({ resumeText := "", jobDescription := "jd", analysis := none, loading := false
           apiError := "", originalResumeText := "" }, 0) :=
  C8_noop_on_empty _ _ _ _ (Or.inl rfl)

/-- C4: for every non-empty resume and job-description text, the resume text
embedded in the constructed request prompt is the length-at-most-10000
prefix of the input and the embedded job-description text is the
length-at-most-5000 prefix; inputs at or under the cap are embedded
unchanged. -/
theorem C4_truncation (r j : String) (hr : r ≠ "") (hj : j ≠ "") :
    analysisPrompt r j
        = promptHeader ++ jsSubstringTo r 10000 ++ promptMid ++ jsSubstringTo j 5000
    ∧ (jsSubstringTo r 10000).length ≤ 10000
    ∧ r.data = (jsSubstringTo r 10000).data ++ r.data.drop 10000
    ∧ (r.length ≤ 10000 → jsSubstringTo r 10000 = r)
    ∧ (jsSubstringTo j 5000).length ≤ 5000
    ∧ j.data = (jsSubstringTo j 5000).data ++ j.data.drop 5000
    ∧ (j.length ≤ 5000 → jsSubstringTo j 5000 = j) := by
  refine ⟨rfl, ?_, ?_, ?_, ?_, ?_, ?_⟩
  · show (r.data.take 10000).length ≤ 10000
    simp [List.length_take]
  · exact (List.take_append_drop 10000 r.data).symm
  · intro hle
    apply strExt
    show r.data.take 10000 = r.data
    exact List.take_of_length_le hle
  · show (j.data.take 5000).length ≤ 5000
    simp [List.length_take]
  · exact (List.take_append_drop 5000 j.data).symm
  · intro hle
    apply strExt
    show j.data.take 5000 = j.data
    exact List.take_of_length_le hle

/-- Witness for the C4 truncation theorem at concrete short inputs. -/
theorem C4_truncation_witness :
    jsSubstringTo "resume body" 10000 = "resume body"
    ∧ jsSubstringTo "job body" 5000 = "job body" :=
  ⟨(C4_truncation "resume body" "job body" (by decide) (by decide)).2.2.2.1 (by decide),
   (C4_truncation "resume body" "job body" (by decide) (by decide)).2.2.2.2.2.2 (by decide)⟩

/-- C3: when the transport succeeds, the extracted envelope payload parses,
but the parsed object carries no numeric matchPercentage member, the
analysis pipeline records the schema-violation message and no partial
result is surfaced: the stored analysis result remains none and a visible
non-empty error state is set instead. -/
theorem C3_schema_violation_gate (transportFor : String → Nat → FetchOutcome)
    (parse : JValue → Except String JValue) (key : String) (st : AppState)
    (n : Nat) (ds : List Nat) (envelope parsed : JValue)
    (hr : st.resumeText ≠ "") (hj : st.jobDescription ≠ "")
    (hfetch : fetchWithRetry (transportFor (analysisPrompt st.resumeText st.jobDescription)) 3
        = (n, ds, .ok envelope))
    (hext : extractJSON parse envelope = .ok parsed)
    (hgate : ∀ k : Int, optProp (some parsed) "matchPercentage" ≠ some (.num k)) :
    (analyzeResume transportFor parse (some key) st).1.analysis = none
    ∧ (analyzeResume transportFor parse (some key) st).1.apiError
        = analysisFailedMsg missingMatchMsg
    ∧ (analyzeResume transportFor parse (some key) st).1.apiError ≠ "" := by
  have hr1 : (st.resumeText == "") = false := by simp [hr]
  have hj1 : (st.jobDescription == "") = false := by simp [hj]
  have heq : analyzeResume transportFor parse (some key) st
      = ({ st with
            loading := false,
            analysis := none,
            apiError := analysisFailedMsg missingMatchMsg,
            originalResumeText := st.resumeText }, n) := by
    rw [analyzeResume]
    simp only [hr1, hj1, Bool.or_self, Bool.false_eq_true, if_false, hfetch, hext]
  have hne : analysisFailedMsg missingMatchMsg ≠ "" := by decide
  rw [heq]
  exact ⟨rfl, rfl, fun hc => hne hc⟩

/-- Witness for the C3 schema-violation theorem: a transport that delivers
an envelope whose text blob parses to an empty object. -/
theorem C3_schema_violation_gate_witness :
    (analyzeResume
        (fun _ _ => FetchOutcome.resp true 200 (.ok (JValue.obj
          [("candidates", JValue.arr [JValue.obj
            [("content", JValue.obj
              [("parts", JValue.arr [JValue.obj [("text", JValue.str "[]")]])])]])])))
        (fun _ => Except.ok (JValue.obj []))
        (some "key")
        { resumeText := "resume", jobDescription := "job", analysis := none,
          loading := false, apiError := "", originalResumeText := "" }).1.analysis = none :=
  (C3_schema_violation_gate
      (fun _ _ => FetchOutcome.resp true 200 (.ok (JValue.obj
        [("candidates", JValue.arr [JValue.obj
          [("content", JValue.obj
            [("parts", JValue.arr [JValue.obj [("text", JValue.str "[]")]])])]])])))
      (fun _ => Except.ok (JValue.obj []))
      "key"
      { resumeText := "resume", jobDescription := "job", analysis := none,
        loading := false, apiError := "", originalResumeText := "" }
      1 []
      (JValue.obj [("candidates", JValue.arr [JValue.obj
        [("content", JValue.obj
          [("parts", JValue.arr [JValue.obj [("text", JValue.str "[]")]])])]])])
      (JValue.obj [])
      (by decide) (by decide) rfl rfl
      (fun k h => Option.noConfusion h)).1

/-- C10: for every non-null envelope, the response-payload extractor
returns the parsed value of the nested text blob exactly when that parse is
non-null and of object type, so JSON arrays pass extraction and are caught
only by the later matchPercentage gate (which sees no such member on an
array), while an absent or empty blob and a blob parsing to null or to a
non-object primitive (number, string, boolean) all throw the
invalid-or-empty-response error. -/
theorem C10_extract_json (parse : JValue → Except String JValue) (apiResponse : JValue)
    (cands : Option JValue) (hcands : getProp apiResponse "candidates" = .ok cands) :
    (∀ s v, nestedTextBlob cands = some (.str s) → s ≠ "" → parse (.str s) = .ok v →
      v ≠ .null → isObjectType v = true → extractJSON parse apiResponse = .ok v)
    ∧ (nestedTextBlob cands = none →
        extractJSON parse apiResponse = .error (processFailMsg invalidResponseMsg))
    ∧ (nestedTextBlob cands = some (.str "") →
        extractJSON parse apiResponse = .error (processFailMsg invalidResponseMsg))
    ∧ (∀ s, nestedTextBlob cands = some (.str s) → s ≠ "" → parse (.str s) = .ok .null →
        extractJSON parse apiResponse = .error (processFailMsg invalidResponseMsg))
    ∧ (∀ s k, nestedTextBlob cands = some (.str s) → s ≠ "" → parse (.str s) = .ok (.num k) →
        extractJSON parse apiResponse = .error (processFailMsg invalidResponseMsg))
    ∧ (∀ s t, nestedTextBlob cands = some (.str s) → s ≠ "" → parse (.str s) = .ok (.str t) →
        extractJSON parse apiResponse = .error (processFailMsg invalidResponseMsg))
    ∧ (∀ s b, nestedTextBlob cands = some (.str s) → s ≠ "" → parse (.str s) = .ok (.bool b) →
        extractJSON parse apiResponse = .error (processFailMsg invalidResponseMsg))
    ∧ (∀ xs, isObjectType (JValue.arr xs) = true
        ∧ optProp (some (JValue.arr xs)) "matchPercentage" = none) := by
  refine ⟨?_, ?_, ?_, ?_, ?_, ?_, ?_, ?_⟩
  · intro s v hblob hs hparse hnull hobj
    have hts : truthy (JValue.str s) = true := by simp [truthy, hs]
    have htv : truthy v = true := by
      cases v <;> simp_all [truthy, isObjectType]
    simp [extractJSON, hcands, hblob, hts, hparse, htv, hobj]
  · intro hblob
    simp [extractJSON, hcands, hblob]
  · intro hblob
    simp [extractJSON, hcands, hblob, truthy]
  · intro s hblob hs hparse
    simp [extractJSON, hcands, hblob, truthy, hs, hparse, isObjectType]
  · intro s k hblob hs hparse
    by_cases hk : k = 0 <;>
      simp [extractJSON, hcands, hblob, truthy, hs, hparse, isObjectType, hk]
  · intro s t hblob hs hparse
    by_cases ht : t = "" <;>
      simp [extractJSON, hcands, hblob, truthy, hs, hparse, isObjectType, ht]
  · intro s b hblob hs hparse
    cases b <;> simp [extractJSON, hcands, hblob, truthy, hs, hparse, isObjectType]
  · intro xs
    exact ⟨rfl, rfl⟩

/-- Witness for the C10 extractor theorem: a concrete envelope whose text
blob parses to a JSON array passes extraction, and the array carries no
matchPercentage member for the later gate. -/
theorem C10_extract_json_witness :
    extractJSON
        (fun _ => Except.ok (JValue.arr [JValue.num 1]))
        (JValue.obj [("candidates", JValue.arr [JValue.obj
          [("content", JValue.obj
            [("parts", JValue.arr [JValue.obj [("text", JValue.str "[1]")]])])]])])
      = .ok (JValue.arr [JValue.num 1])
    ∧ optProp (some (JValue.arr [JValue.num 1])) "matchPercentage" = none :=
  ⟨(C10_extract_json
      (fun _ => Except.ok (JValue.arr [JValue.num 1]))
      (JValue.obj [("candidates", JValue.arr [JValue.obj
        [("content", JValue.obj
          [("parts", JValue.arr [JValue.obj [("text", JValue.str "[1]")]])])]])])
      (some (JValue.arr [JValue.obj
        [("content", JValue.obj
          [("parts", JValue.arr [JValue.obj [("text", JValue.str "[1]")]])])]]))
      rfl).1 "[1]" (JValue.arr [JValue.num 1]) rfl (by decide) rfl
      (fun h => JValue.noConfusion h) rfl,
   rfl⟩

/-- C6: when the nested text blob of the response envelope parses to an object
carrying a numeric matchPercentage with every other declared field absent,
the pipeline stores that object as the analysis result, and every
downstream consumer substitutes defaults for the absent fields (zero
sub-scores, zero ATS score, empty arrays and objects, empty summary
string) without raising. -/
theorem C6_absent_fields_default (transportFor : String → Nat → FetchOutcome)
    (parse : JValue → Except String JValue) (key : String) (st : AppState)
    (n : Nat) (ds : List Nat) (envelope : JValue)
    (fs : List (String × JValue)) (mp : Int)
    (hr : st.resumeText ≠ "") (hj : st.jobDescription ≠ "")
    (hfetch : fetchWithRetry (transportFor (analysisPrompt st.resumeText st.jobDescription)) 3
        = (n, ds, .ok envelope))
    (hext : extractJSON parse envelope = .ok (.obj fs))
    (hmp : lookupField fs "matchPercentage" = some (.num mp))
    (hats : lookupField fs "atsScore" = none)
    (hsb : lookupField fs "scoreBreakdown" = none)
    (hmk : lookupField fs "missingKeywords" = none)
    (hsf : lookupField fs "sectionFeedback" = none)
    (hstr : lookupField fs "strengths" = none)
    (hweak : lookupField fs "weaknesses" = none)
    (hkc : lookupField fs "keyChanges" = none)
    (hsum : lookupField fs "summary" = none) :
    (analyzeResume transportFor parse (some key) st).1.analysis = some (.obj fs)
    ∧ analysisResultsView (.obj fs) = .ok
        { matchPercentage := .num mp, atsScore := .num 0, keywordsScore := .num 0,
          experienceScore := .num 0, skillsScore := .num 0, educationScore := .num 0,
          summary := .str "", missingKeywords := [], strengths := [], weaknesses := [],
          keyChanges := [], skillsFeedback := [], experienceFeedback := [],
          educationFeedback := [] }
    ∧ (∀ name : String, getSafeScore (lookupField fs "scoreBreakdown") name = 0) := by
  have hr1 : (st.resumeText == "") = false := by simp [hr]
  have hj1 : (st.jobDescription == "") = false := by simp [hj]
  have hgate : optProp (some (JValue.obj fs)) "matchPercentage" = some (.num mp) := by
    simp [optProp, hmp]
  refine ⟨?_, ?_, ?_⟩
  · rw [analyzeResume]
    simp only [hr1, hj1, Bool.or_self, Bool.false_eq_true, if_false, hfetch, hext, hgate]
  · simp [analysisResultsView, destructured, hmp, hats, hsb, hmk, hsf, hstr, hweak, hkc,
      hsum, renderKeywordList, optProp, lookupField, jsOr, safeArray, safeArrayOpt]
  · intro name
    rw [hsb]
    rfl

/-- Witness for the C6 defaulting theorem at a concrete envelope whose blob
parses to an object holding only a matchPercentage of 72. -/
theorem C6_absent_fields_default_witness :
    (analyzeResume
        (fun _ _ => FetchOutcome.resp true 200 (.ok (JValue.obj
          [("candidates", JValue.arr [JValue.obj
            [("content", JValue.obj
              [("parts", JValue.arr [JValue.obj [("text", JValue.str "mp")]])])]])])))
        (fun _ => Except.ok (JValue.obj [("matchPercentage", JValue.num 72)]))
        (some "key")
        { resumeText := "resume", jobDescription := "job", analysis := none,
          loading := false, apiError := "", originalResumeText := "" }).1.analysis
      = some (JValue.obj [("matchPercentage", JValue.num 72)])
    ∧ analysisResultsView (JValue.obj [("matchPercentage", JValue.num 72)]) = .ok
        { matchPercentage := JValue.num 72, atsScore := JValue.num 0,
          keywordsScore := JValue.num 0, experienceScore := JValue.num 0,
          skillsScore := JValue.num 0, educationScore := JValue.num 0,
          summary := JValue.str "", missingKeywords := [], strengths := [],
          weaknesses := [], keyChanges := [], skillsFeedback := [],
          experienceFeedback := [], educationFeedback := [] } := by
  have h := C6_absent_fields_default
    (fun _ _ => FetchOutcome.resp true 200 (.ok (JValue.obj
      [("candidates", JValue.arr [JValue.obj
        [("content", JValue.obj
          [("parts", JValue.arr [JValue.obj [("text", JValue.str "mp")]])])]])])))
    (fun _ => Except.ok (JValue.obj [("matchPercentage", JValue.num 72)]))
    "key"
    { resumeText := "resume", jobDescription := "job", analysis := none,
      loading := false, apiError := "", originalResumeText := "" }
    1 []
    (JValue.obj [("candidates", JValue.arr [JValue.obj
      [("content", JValue.obj
        [("parts", JValue.arr [JValue.obj [("text", JValue.str "mp")]])])]])])
    [("matchPercentage", JValue.num 72)] 72
    (by decide) (by decide) rfl rfl rfl rfl rfl rfl rfl rfl rfl rfl rfl
  exact ⟨h.1, h.2.1⟩

/-- C7 counterexample: in the drag-and-drop upload component, dropping a
non-PDF file is a rejected-file failure that sets a visible error yet never
signals the caller with an empty string, so previously displayed extracted
text is left in place alongside the error; the claim that every extraction
failure clears prior text is therefore false. -/
theorem C7_counterexample :
    (onDrop [{ name := "resume.txt", ftype := "text/plain", pdfDoc := .ok [["hi"]] }]).errorMsg
        = some "Please upload a valid PDF file (max 5MB)."
    ∧ (onDrop [{ name := "resume.txt", ftype := "text/plain", pdfDoc := .ok [["hi"]] }]).emitted
        = none := by
  exact ⟨rfl, rfl⟩

/-- C7 amended: in the basic upload component every failure path (whether
unsupported format, parse failure or read failure) signals the caller with
the empty string so prior extracted text is cleared, and in the
drag-and-drop component the PDF parse-failure path does the same; but the
drag-and-drop empty-drop, invalid-type and dropzone-rejection paths set an
error without emitting anything, leaving prior text displayed. -/
theorem C7_clear_on_failure :
    (∀ (file : UploadedFile) (m : String),
      (handleFileUpload file).errorMsg = some m → (handleFileUpload file).emitted = some "")
    ∧ (∀ file : DropFile,
        (extractTextDrop file).errorMsg.isSome = true →
          (extractTextDrop file).emitted = some "")
    ∧ (∀ file : DropFile, file.ftype ≠ "application/pdf" →
        jsEndsWith (jsToLower file.name) ".pdf" = false →
          (onDrop [file]).emitted = none ∧ (onDrop [file]).errorMsg.isSome = true)
    ∧ (∀ rejectionCodes : List String,
        (onDropRejected [rejectionCodes]).emitted = none) := by
  refine ⟨?_, ?_, ?_, ?_⟩
  · intro file m h
    rw [handleFileUpload] at h ⊢
    rcases hres : uploadResult file with e | t
    · rfl
    · rw [hres] at h
      exact Option.noConfusion h
  · intro file h
    rw [extractTextDrop] at h ⊢
    rcases hdoc : file.pdfDoc with e | pages
    · rfl
    · rw [hdoc] at h
      exact Bool.noConfusion h
  · intro file hft hname
    have hft1 : (file.ftype == "application/pdf") = false := by simp [hft]
    simp [onDrop, hft1, hname]
  · intro codes
    rw [onDropRejected]
    cases hany : codes.any (fun c => c == "file-too-large") <;> simp

/-- Witness for the amended C7 theorem: an unsupported-type upload in the
basic component emits the empty string, as does a PDF parse failure in the
drag-and-drop component. -/
theorem C7_clear_on_failure_witness :
    (handleFileUpload
        { name := "data.bin", ftype := "application/octet-stream",
          pdfDoc := .error .parseError, textRead := .error () }).emitted = some ""
    ∧ (extractTextDrop
        { name := "cv.pdf", ftype := "application/pdf", pdfDoc := .error () }).emitted
        = some "" :=
  ⟨C7_clear_on_failure.1
      { name := "data.bin", ftype := "application/octet-stream",
        pdfDoc := .error .parseError, textRead := .error () }
      (unsupportedTypeMsg "data.bin") rfl,
   C7_clear_on_failure.2.1
      { name := "cv.pdf", ftype := "application/pdf", pdfDoc := .error () } rfl⟩

/-- C9 counterexample: an analysis object whose matchPercentage is 150
passes the numeric gate and is rendered by the AnalysisResults panel as 150
with no clamping, so the claim that every rendered numeric score lies
within 0-100 is false. -/
theorem C9_counterexample :
    optProp (some (JValue.obj [("matchPercentage", JValue.num 150)])) "matchPercentage"
        = some (JValue.num 150)
    ∧ analysisResultsView (JValue.obj [("matchPercentage", JValue.num 150)]) = .ok
        { matchPercentage := JValue.num 150, atsScore := JValue.num 0,
          keywordsScore := JValue.num 0, experienceScore := JValue.num 0,
          skillsScore := JValue.num 0, educationScore := JValue.num 0,
          summary := JValue.str "", missingKeywords := [], strengths := [],
          weaknesses := [], keyChanges := [], skillsFeedback := [],
          experienceFeedback := [], educationFeedback := [] }
    ∧ ¬ ((150 : Int) ≤ 100) := by
  refine ⟨rfl, rfl, by decide⟩

/-- C9 amended: the clamping consumers do bound what they display, namely
getSafeScore of the ScoreBreakdown component always lies within 0-100
(replacing values whose numeric coercion fails with 0) and the
ATSCompatibility normalization clamps every numeric score into 0-100 and
displays non-numbers as not available; the AnalysisResults panel of
App.jsx, however, renders matchPercentage, atsScore and the sub-scores as
received, without clamping. -/
theorem C9_clamped_consumers :
    (∀ (b : Option JValue) (name : String),
      0 ≤ getSafeScore b name ∧ getSafeScore b name ≤ 100)
    ∧ (∀ (s : Option JValue) (v : Int), atsNormalizedScore s = some v → 0 ≤ v ∧ v ≤ 100)
    ∧ (∀ s : String, atsNormalizedScore (some (JValue.str s)) = none)
    ∧ (∀ name : String,
        getSafeScore (some (JValue.obj [(name, JValue.obj [])])) name = 0) := by
  refine ⟨?_, ?_, ?_, ?_⟩
  · intro b name
    have h100 : (0 : Int) ≤ 100 := by decide
    rcases b with _ | v
    · exact ⟨le_refl 0, show (0 : Int) ≤ 100 from h100⟩
    · rw [getSafeScore]
      cases htv : truthy v && isObjectType v
      · exact ⟨le_refl 0, show (0 : Int) ≤ 100 from h100⟩
      · rcases hn : (match getIndexProp v name with
          | some (.num n) => some n
          | r => jsToNumber r : Option Int) with _ | n
        · exact ⟨le_refl 0, show (0 : Int) ≤ 100 from h100⟩
        · exact ⟨show (0 : Int) ≤ min (max n 0) 100 from
              le_min (le_max_right n 0) h100,
            show min (max n 0) 100 ≤ 100 from min_le_right _ 100⟩
  · intro s v h
    rcases s with _ | w
    · exact Option.noConfusion h
    · cases w with
      | num k =>
        injection h with h2
        subst h2
        exact ⟨le_min (le_max_right k 0) (by decide), min_le_right _ 100⟩
      | null => exact Option.noConfusion h
      | bool b => exact Option.noConfusion h
      | str t => exact Option.noConfusion h
      | arr xs => exact Option.noConfusion h
      | obj fsv => exact Option.noConfusion h
  · intro s
    rfl
  · intro name
    rw [getSafeScore]
    simp [getIndexProp, lookupField, jsToNumber, jsToNumberCore, truthy, isObjectType]

/-- Witness for the amended C9 theorem at concrete out-of-range and
non-numeric scores. -/
theorem C9_clamped_consumers_witness :
    (0 ≤ getSafeScore (some (JValue.obj [("skills", JValue.num 150)])) "skills"
      ∧ getSafeScore (some (JValue.obj [("skills", JValue.num 150)])) "skills" ≤ 100)
    ∧ (0 ≤ (97 : Int) ∧ (97 : Int) ≤ 100) :=
  ⟨C9_clamped_consumers.1 (some (JValue.obj [("skills", JValue.num 150)])) "skills",
   C9_clamped_consumers.2.1 (some (JValue.num 97)) 97 rfl⟩

end MatchMyResume
